import Mathlib

/-!
Verification of the sony-rs protocol core (`sony-protocol` crate).

The Rust source is shallowly embedded as executable Lean definitions:

* byte buffers (`[u8; 1024]`) become total functions `Nat → Nat` together
  with the capacity constant used by the source's bounds checks;
* `u8`/`u32` arithmetic is `Nat` arithmetic with explicit `% 256` /
  `% 2 ^ 32` where the source wraps;
* fallible Rust functions returning `Result` become `Except`-valued
  functions, and any function that can panic (out-of-bounds indexing,
  `unwrap`, `assert!`, `todo!`, `unimplemented!`) is additionally wrapped
  in `Option`, `none` marking a panic;
* `&mut self` methods return the successor state explicitly.

Durations and instants are modelled in milliseconds.
-/

/-- Byte-buffer update: `buf[i] = v`. -/
def updateAt (buf : Nat → Nat) (i v : Nat) : Nat → Nat :=
  fun j => if j = i then v else buf j

/-- The slice `buf[start..en]` of a byte buffer, as a list. -/
def listOf (buf : Nat → Nat) (start en : Nat) : List Nat :=
  (List.range (en - start)).map (fun i => buf (start + i))

/-- Write the bytes `bs` into `buf` starting at `start`
(`buf[start..start + bs.len()].copy_from_slice(bs)`). -/
def writeList (buf : Nat → Nat) (start : Nat) : List Nat → (Nat → Nat)
  | [] => buf
  | b :: rest => writeList (updateAt buf start b) (start + 1) rest

/-- Model of `iter().fold(0, |acc: u8, x| acc.wrapping_add(*x))`: wrapping byte sum. -/
def checksum8 (l : List Nat) : Nat :=
  l.foldl (fun acc x => (acc + x) % 256) 0

/-- Model of `(size as u32).to_be_bytes()`: big-endian 4-byte encoding. -/
def be4 (n : Nat) : List Nat :=
  [n / 16777216 % 256, n / 65536 % 256, n / 256 % 256, n % 256]

/-- Model of `u32::from_be_bytes` on a 4-byte slice. -/
def fromBe4 (l : List Nat) : Nat :=
  ((l.getD 0 0 * 256 + l.getD 1 0) * 256 + l.getD 2 0) * 256 + l.getD 3 0

/-- Model of `a.wrapping_sub(b)` on `u8`. -/
def wrappingSub8 (a b : Nat) : Nat :=
  (a % 256 + 256 - b % 256) % 256

/-- Model of `enum Error` from `sony-protocol/src/error.rs`. -/
inductive Err where
  | unknownPacket : String → Err
  | packetPending : Err
  | invalidValueForEnum : String → Nat → Err
  | unknownPayloadType : Nat → Err
  | missingBytes : Err
  | notImplemented : String → Err
deriving DecidableEq

/-- The packet-parse error constructed in `v1/mod.rs`
(`crate::TryFromPacketError { seqnum, error }`): a parse error together
with the sequence number read at offset 2. -/
structure TryFromPacketError where
  seqnum : Nat
  error : Err
deriving DecidableEq

/-- Model of `anyhow::Error` as produced by `Device` in `lib.rs`: either a wrapped
`TryFromPacketError` (from `?` on `Packet::try_from`), a wrapped protocol
`Error` (from `?` on `write_into`), or an ad-hoc `anyhow::format_err!`
message. -/
inductive AnyhowError where
  | fromPacket : TryFromPacketError → AnyhowError
  | fromErr : Err → AnyhowError
  | message : String → AnyhowError
deriving DecidableEq

/-- Model of `enum BatteryType` (`Single = 0, Dual = 1, Case = 2`). -/
inductive BatteryType where
  | Single : BatteryType
  | Dual : BatteryType
  | Case : BatteryType
deriving DecidableEq

/-- Model of the cast `BatteryType as u8`. -/
def batteryTypeCode : BatteryType → Nat
  | BatteryType.Single => 0
  | BatteryType.Dual => 1
  | BatteryType.Case => 2

/-- Model of `enum BatteryState`. -/
inductive BatteryState where
  | Single : (level : Nat) → (is_charging : Bool) → BatteryState
  | Case : (level : Nat) → (is_charging : Bool) → BatteryState
  | Dual : (level_left : Nat) → (is_left_charging : Bool) →
           (level_right : Nat) → (is_right_charging : Bool) → BatteryState
deriving DecidableEq

/-- Model of `enum AncMode`. -/
inductive AncMode where
  | Off : AncMode
  | AmbiantMode : AncMode
  | On : AncMode
  | Wind : AncMode
deriving DecidableEq

/-- Model of `struct AncPayload`. -/
structure AncPayload where
  anc_mode : AncMode
  focus_on_voice : Bool
  ambiant_level : Nat
deriving DecidableEq

/-- Model of `impl TryFrom<u8> for BatteryType`. -/
def BatteryType.tryFrom (value : Nat) : Except Err BatteryType :=
  if value = 0 then Except.ok BatteryType.Single
  else if value = 1 then Except.ok BatteryType.Dual
  else if value = 2 then Except.ok BatteryType.Case
  else Except.error (Err.invalidValueForEnum "battery type" value)

/-- Model of `impl TryFrom<&[u8]> for BatteryState`.  Indexing `value[i]` out of
bounds is a Rust panic, modelled as `none`; reads occur in source order. -/
def BatteryState.tryFrom (value : List Nat) : Option (Except Err BatteryState) :=
  match value.get? 0 with
  | none => none
  | some v0 =>
    match BatteryType.tryFrom v0 with
    | Except.error e => some (Except.error e)
    | Except.ok BatteryType.Single =>
      match value.get? 1, value.get? 2 with
      | some level, some c => some (Except.ok (BatteryState.Single level (c == 1)))
      | _, _ => none
    | Except.ok BatteryType.Case =>
      match value.get? 1, value.get? 2 with
      | some level, some c => some (Except.ok (BatteryState.Case level (c == 1)))
      | _, _ => none
    | Except.ok BatteryType.Dual =>
      match value.get? 1 with
      | none => none
      | some b1 =>
        if b1 = 0 then
          match value.get? 3, value.get? 4 with
          | some l, some c => some (Except.ok (BatteryState.Single l (c == 1)))
          | _, _ => none
        else
          match value.get? 3 with
          | none => none
          | some b3 =>
            if b3 = 0 then
              match value.get? 2 with
              | none => none
              | some c => some (Except.ok (BatteryState.Single b1 (c == 1)))
            else
              match value.get? 2, value.get? 4 with
              | some c2, some c4 =>
                some (Except.ok (BatteryState.Dual b1 (c2 == 1) b3 (c4 == 1)))
              | _, _ => none

/-- Model of `impl Payload for AncPayload::write_into`: the 7 encoded bytes. -/
def AncPayload.write_into (a : AncPayload) : List Nat :=
  [0x02,
   if a.anc_mode = AncMode.Off then 0x00 else 0x11,
   0x02,
   match a.anc_mode with
   | AncMode.Off => 0x00
   | AncMode.AmbiantMode => 0x00
   | AncMode.On => 0x02
   | AncMode.Wind => 0x01,
   0x01,
   if a.focus_on_voice then 0x01 else 0x00,
   match a.anc_mode with
   | AncMode.Off => a.ambiant_level
   | AncMode.AmbiantMode => a.ambiant_level
   | AncMode.On => 0x01
   | AncMode.Wind => 0x01]

/-- Model of `impl TryFrom<&[u8]> for AncPayload`: `assert_eq!(7, value.len())` and
the `unimplemented!()` arms are Rust panics, modelled as `none`. -/
def AncPayload.tryFrom (value : List Nat) : Option (Except Err AncPayload) :=
  if value.length = 7 then
    let b1 := value.getD 1 0
    let b2 := value.getD 2 0
    let b3 := value.getD 3 0
    let mode? : Option AncMode :=
      if b1 = 0x00 then some AncMode.Off
      else if b1 = 0x01 then
        if b2 = 0x00 then
          if b3 = 0x00 then some AncMode.AmbiantMode
          else if b3 = 0x01 then some AncMode.On
          else none
        else if b2 = 0x02 then
          if b3 = 0x00 then some AncMode.AmbiantMode
          else if b3 = 0x01 then some AncMode.Wind
          else if b3 = 0x02 then some AncMode.On
          else none
        else none
      else none
    match mode? with
    | none => none
    | some m => some (Except.ok ⟨m, value.getD 5 0 == 1, value.getD 6 0⟩)
  else none

/-- Model of `enum PayloadCommand1`: the full catalogue of recognized commands. -/
inductive PayloadCommand1 where
  | InitRequest : PayloadCommand1
  | InitReply : Nat × Nat × Nat → PayloadCommand1
  | FwVersionRequest : PayloadCommand1
  | FwVersionReply : PayloadCommand1
  | Init2Request : PayloadCommand1
  | Init2Reply : PayloadCommand1
  | BatteryLevelRequest : BatteryType → PayloadCommand1
  | BatteryLevelReply : BatteryState → PayloadCommand1
  | BatteryLevelNotify : BatteryState → PayloadCommand1
  | AudioCodecRequest : PayloadCommand1
  | AudioCodecReply : PayloadCommand1
  | AudioCodecNotify : PayloadCommand1
  | PowerOff : PayloadCommand1
  | SoundPositionOrModeGet : PayloadCommand1
  | SoundPositionOrModeRet : PayloadCommand1
  | SoundPositionOrModeSet : PayloadCommand1
  | SoundPositionOrModeNotify : PayloadCommand1
  | EqualizerGet : PayloadCommand1
  | EqualizerRet : PayloadCommand1
  | EqualizerSet : PayloadCommand1
  | EqualizerNotify : PayloadCommand1
  | AmbientSoundControlGet : PayloadCommand1
  | AmbientSoundControlRet : AncPayload → PayloadCommand1
  | AmbientSoundControlSet : AncPayload → PayloadCommand1
  | AmbientSoundControlNotify : AncPayload → PayloadCommand1
  | VolumeGet : PayloadCommand1
  | VolumeRet : PayloadCommand1
  | VolumeSet : PayloadCommand1
  | VolumeNotify : PayloadCommand1
  | NoiseCancellingOptimizerStart : PayloadCommand1
  | NoiseCancellingOptimizerStatus : PayloadCommand1
  | NoiseCancellingOptimizerStateGet : PayloadCommand1
  | NoiseCancellingOptimizerStateRet : PayloadCommand1
  | NoiseCancellingOptimizerStateNotify : PayloadCommand1
  | TouchSensorGet : PayloadCommand1
  | TouchSensorRet : PayloadCommand1
  | TouchSensorSet : PayloadCommand1
  | TouchSensorNotify : PayloadCommand1
  | AudioUpsamplingGet : PayloadCommand1
  | AudioUpsamplingRet : PayloadCommand1
  | AudioUpsamplingSet : PayloadCommand1
  | AudioUpsamplingNotify : PayloadCommand1
  | AutomaticPowerOffButtonModeGet : PayloadCommand1
  | AutomaticPowerOffButtonModeRet : PayloadCommand1
  | AutomaticPowerOffButtonModeSet : PayloadCommand1
  | AutomaticPowerOffButtonModeNotify : PayloadCommand1
  | SpeakToChatConfigGet : PayloadCommand1
  | SpeakToChatConfigRet : PayloadCommand1
  | SpeakToChatConfigSet : PayloadCommand1
  | SpeakToChatConfigNotify : PayloadCommand1
  | JsonGet : PayloadCommand1
  | JsonRet : PayloadCommand1
  | SomethingGet : PayloadCommand1
  | SomethingRet : PayloadCommand1

/-- Model of `impl TryFrom<&[u8]> for PayloadCommand1`: dispatch on the command
code at body offset 0.  `value[0]` on an empty body and the `assert!` in
the `0x01` arm are panics (`none`). -/
def PayloadCommand1.tryFrom (value : List Nat) : Option (Except Err PayloadCommand1) :=
  match value.get? 0 with
  | none => none
  | some code =>
    if code = 0x00 then some (Except.ok PayloadCommand1.InitRequest)
    else if code = 0x01 then
      if 3 < value.length then
        some (Except.ok (PayloadCommand1.InitReply
          (value.getD 1 0, value.getD 2 0, value.getD 3 0)))
      else none
    else if code = 0x04 then some (Except.error (Err.notImplemented "Self::FwVersionRequest"))
    else if code = 0x05 then some (Except.error (Err.notImplemented "Self::FwVersionReply"))
    else if code = 0x06 then some (Except.error (Err.notImplemented "Self::Init2Request"))
    else if code = 0x07 then some (Except.error (Err.notImplemented "Self::Init2Reply"))
    else if code = 0x10 then
      match value.get? 1 with
      | none => none
      | some b =>
        match BatteryType.tryFrom b with
        | Except.error e => some (Except.error e)
        | Except.ok t => some (Except.ok (PayloadCommand1.BatteryLevelRequest t))
    else if code = 0x11 then
      match BatteryState.tryFrom (value.drop 1) with
      | none => none
      | some (Except.error e) => some (Except.error e)
      | some (Except.ok s) => some (Except.ok (PayloadCommand1.BatteryLevelReply s))
    else if code = 0x13 then
      match BatteryState.tryFrom (value.drop 1) with
      | none => none
      | some (Except.error e) => some (Except.error e)
      | some (Except.ok s) => some (Except.ok (PayloadCommand1.BatteryLevelNotify s))
    else if code = 0x18 then some (Except.error (Err.notImplemented "Self::AudioCodecRequest"))
    else if code = 0x19 then some (Except.error (Err.notImplemented "Self::AudioCodecReply"))
    else if code = 0x1b then some (Except.error (Err.notImplemented "Self::AudioCodecNotify"))
    else if code = 0x22 then some (Except.error (Err.notImplemented "Self::PowerOff"))
    else if code = 0x46 then some (Except.error (Err.notImplemented "Self::SoundPositionOrModeGet"))
    else if code = 0x47 then some (Except.error (Err.notImplemented "Self::SoundPositionOrModeRet"))
    else if code = 0x48 then some (Except.error (Err.notImplemented "Self::SoundPositionOrModeSet"))
    else if code = 0x49 then some (Except.error (Err.notImplemented "Self::SoundPositionOrModeNotify"))
    else if code = 0x56 then some (Except.error (Err.notImplemented "Self::EqualizerGet"))
    else if code = 0x57 then some (Except.error (Err.notImplemented "Self::EqualizerRet"))
    else if code = 0x58 then some (Except.error (Err.notImplemented "Self::EqualizerSet"))
    else if code = 0x59 then some (Except.error (Err.notImplemented "Self::EqualizerNotify"))
    else if code = 0x66 then some (Except.ok PayloadCommand1.AmbientSoundControlGet)
    else if code = 0x67 then
      match AncPayload.tryFrom (value.drop 1) with
      | none => none
      | some (Except.error e) => some (Except.error e)
      | some (Except.ok a) => some (Except.ok (PayloadCommand1.AmbientSoundControlRet a))
    else if code = 0x68 then
      match AncPayload.tryFrom (value.drop 1) with
      | none => none
      | some (Except.error e) => some (Except.error e)
      | some (Except.ok a) => some (Except.ok (PayloadCommand1.AmbientSoundControlSet a))
    else if code = 0x69 then
      match AncPayload.tryFrom (value.drop 1) with
      | none => none
      | some (Except.error e) => some (Except.error e)
      | some (Except.ok a) => some (Except.ok (PayloadCommand1.AmbientSoundControlNotify a))
    else if code = 0xa6 then some (Except.error (Err.notImplemented "Self::VolumeGet"))
    else if code = 0xa7 then some (Except.error (Err.notImplemented "Self::VolumeRet"))
    else if code = 0xa8 then some (Except.error (Err.notImplemented "Self::VolumeSet"))
    else if code = 0xa9 then some (Except.error (Err.notImplemented "Self::VolumeNotify"))
    else if code = 0x84 then some (Except.error (Err.notImplemented "Self::NoiseCancellingOptimizerStart"))
    else if code = 0x85 then some (Except.error (Err.notImplemented "Self::NoiseCancellingOptimizerStatus"))
    else if code = 0x86 then some (Except.error (Err.notImplemented "Self::NoiseCancellingOptimizerStateGet"))
    else if code = 0x87 then some (Except.error (Err.notImplemented "Self::NoiseCancellingOptimizerStateRet"))
    else if code = 0x89 then some (Except.error (Err.notImplemented "Self::NoiseCancellingOptimizerStateNotify"))
    else if code = 0xd6 then some (Except.error (Err.notImplemented "Self::TouchSensorGet"))
    else if code = 0xd7 then some (Except.error (Err.notImplemented "Self::TouchSensorRet"))
    else if code = 0xd8 then some (Except.error (Err.notImplemented "Self::TouchSensorSet"))
    else if code = 0xd9 then some (Except.error (Err.notImplemented "Self::TouchSensorNotify"))
    else if code = 0xe6 then some (Except.error (Err.notImplemented "Self::AudioUpsamplingGet"))
    else if code = 0xe7 then some (Except.error (Err.notImplemented "Self::AudioUpsamplingRet"))
    else if code = 0xe8 then some (Except.error (Err.notImplemented "Self::AudioUpsamplingSet"))
    else if code = 0xe9 then some (Except.error (Err.notImplemented "Self::AudioUpsamplingNotify"))
    else if code = 0xf6 then some (Except.error (Err.notImplemented "Self::AutomaticPowerOffButtonModeGet"))
    else if code = 0xf7 then some (Except.error (Err.notImplemented "Self::AutomaticPowerOffButtonModeRet"))
    else if code = 0xf8 then some (Except.error (Err.notImplemented "Self::AutomaticPowerOffButtonModeSset"))
    else if code = 0xf9 then some (Except.error (Err.notImplemented "Self::AutomaticPowerOffButtonModeNotify"))
    else if code = 0xfa then some (Except.error (Err.notImplemented "Self::SpeakToChatConfigGet"))
    else if code = 0xfb then some (Except.error (Err.notImplemented "Self::SpeakToChatConfigRet"))
    else if code = 0xfc then some (Except.error (Err.notImplemented "Self::SpeakToChatConfigSet"))
    else if code = 0xfd then some (Except.error (Err.notImplemented "Self::SpeakToChatConfigNotify"))
    else if code = 0xc4 then some (Except.error (Err.notImplemented "Self::JsonGet"))
    else if code = 0xc9 then some (Except.error (Err.notImplemented "Self::JsonRet"))
    else if code = 0x90 then some (Except.error (Err.notImplemented "Self::SomethingGet"))
    else if code = 0x91 then some (Except.error (Err.notImplemented "Self::SomethingRet"))
    else some (Except.error (Err.unknownPayloadType code))

/-- Model of `impl Payload for PayloadCommand1::write_into`: the encoded body bytes
(the returned count in the source is the length of this list). -/
def PayloadCommand1.write_into : PayloadCommand1 → Except Err (List Nat)
  | PayloadCommand1.InitRequest => Except.ok [0x00, 0x00]
  | PayloadCommand1.InitReply b => Except.ok [0x01, b.1, b.2.1, b.2.2]
  | PayloadCommand1.FwVersionRequest => Except.error (Err.notImplemented "0x04")
  | PayloadCommand1.FwVersionReply => Except.error (Err.notImplemented "0x05")
  | PayloadCommand1.Init2Request => Except.error (Err.notImplemented "0x06")
  | PayloadCommand1.Init2Reply => Except.error (Err.notImplemented "0x07")
  | PayloadCommand1.BatteryLevelRequest b => Except.ok [0x10, batteryTypeCode b]
  | PayloadCommand1.BatteryLevelReply _ => Except.error (Err.notImplemented "0x11")
  | PayloadCommand1.BatteryLevelNotify _ => Except.error (Err.notImplemented "0x13")
  | PayloadCommand1.AudioCodecRequest => Except.error (Err.notImplemented "0x18")
  | PayloadCommand1.AudioCodecReply => Except.error (Err.notImplemented "0x19")
  | PayloadCommand1.AudioCodecNotify => Except.error (Err.notImplemented "0x1b")
  | PayloadCommand1.PowerOff => Except.error (Err.notImplemented "0x22")
  | PayloadCommand1.SoundPositionOrModeGet => Except.error (Err.notImplemented "0x46")
  | PayloadCommand1.SoundPositionOrModeRet => Except.error (Err.notImplemented "0x47")
  | PayloadCommand1.SoundPositionOrModeSet => Except.error (Err.notImplemented "0x48")
  | PayloadCommand1.SoundPositionOrModeNotify => Except.error (Err.notImplemented "0x49")
  | PayloadCommand1.EqualizerGet => Except.error (Err.notImplemented "0x56")
  | PayloadCommand1.EqualizerRet => Except.error (Err.notImplemented "0x57")
  | PayloadCommand1.EqualizerSet => Except.error (Err.notImplemented "0x58")
  | PayloadCommand1.EqualizerNotify => Except.error (Err.notImplemented "0x59")
  | PayloadCommand1.AmbientSoundControlGet => Except.ok [0x66, 0x02]
  | PayloadCommand1.AmbientSoundControlRet v => Except.ok (0x67 :: v.write_into)
  | PayloadCommand1.AmbientSoundControlSet v => Except.ok (0x68 :: v.write_into)
  | PayloadCommand1.AmbientSoundControlNotify v => Except.ok (0x69 :: v.write_into)
  | PayloadCommand1.VolumeGet => Except.error (Err.notImplemented "0xa6")
  | PayloadCommand1.VolumeRet => Except.error (Err.notImplemented "0xa7")
  | PayloadCommand1.VolumeSet => Except.error (Err.notImplemented "0xa8")
  | PayloadCommand1.VolumeNotify => Except.error (Err.notImplemented "0xa9")
  | PayloadCommand1.NoiseCancellingOptimizerStart => Except.error (Err.notImplemented "0x84")
  | PayloadCommand1.NoiseCancellingOptimizerStatus => Except.error (Err.notImplemented "0x85")
  | PayloadCommand1.NoiseCancellingOptimizerStateGet => Except.error (Err.notImplemented "0x86")
  | PayloadCommand1.NoiseCancellingOptimizerStateRet => Except.error (Err.notImplemented "0x87")
  | PayloadCommand1.NoiseCancellingOptimizerStateNotify => Except.error (Err.notImplemented "0x89")
  | PayloadCommand1.TouchSensorGet => Except.error (Err.notImplemented "0xd6")
  | PayloadCommand1.TouchSensorRet => Except.error (Err.notImplemented "0xd7")
  | PayloadCommand1.TouchSensorSet => Except.error (Err.notImplemented "0xd8")
  | PayloadCommand1.TouchSensorNotify => Except.error (Err.notImplemented "0xd9")
  | PayloadCommand1.AudioUpsamplingGet => Except.error (Err.notImplemented "0xe6")
  | PayloadCommand1.AudioUpsamplingRet => Except.error (Err.notImplemented "0xe7")
  | PayloadCommand1.AudioUpsamplingSet => Except.error (Err.notImplemented "0xe8")
  | PayloadCommand1.AudioUpsamplingNotify => Except.error (Err.notImplemented "0xe9")
  | PayloadCommand1.AutomaticPowerOffButtonModeGet => Except.error (Err.notImplemented "0xf6")
  | PayloadCommand1.AutomaticPowerOffButtonModeRet => Except.error (Err.notImplemented "0xf7")
  | PayloadCommand1.AutomaticPowerOffButtonModeSet => Except.error (Err.notImplemented "0xf8")
  | PayloadCommand1.AutomaticPowerOffButtonModeNotify => Except.error (Err.notImplemented "0xf9")
  | PayloadCommand1.SpeakToChatConfigGet => Except.error (Err.notImplemented "0xfa")
  | PayloadCommand1.SpeakToChatConfigRet => Except.error (Err.notImplemented "0xfb")
  | PayloadCommand1.SpeakToChatConfigSet => Except.error (Err.notImplemented "0xfc")
  | PayloadCommand1.SpeakToChatConfigNotify => Except.error (Err.notImplemented "0xfd")
  | PayloadCommand1.JsonGet => Except.error (Err.notImplemented "0xc4")
  | PayloadCommand1.JsonRet => Except.error (Err.notImplemented "0xc9")
  | PayloadCommand1.SomethingGet => Except.error (Err.notImplemented "0x90")
  | PayloadCommand1.SomethingRet => Except.error (Err.notImplemented "0x91")

/-- Model of `enum PacketContent`. -/
inductive PacketContent where
  | Ack : PacketContent
  | Command1 : PayloadCommand1 → PacketContent
  | Command2 : PacketContent

/-- Model of `struct Packet`. -/
structure Packet where
  seqnum : Nat
  content : PacketContent

/-- Header kind byte written by `Packet::write_into` (`0x01` Ack, `0x0c`
Command1, `0xe` Command2). -/
def kindByte : PacketContent → Nat
  | PacketContent.Ack => 0x01
  | PacketContent.Command1 _ => 0x0c
  | PacketContent.Command2 => 0x0e

/-- Test for the `Ack` constructor (`PacketContent::Ack == _`): `Ack`
carries no fields, so the source's `PartialEq` comparison against the
literal `Ack` is exactly constructor discrimination. -/
def PacketContent.is_ack : PacketContent → Bool
  | PacketContent.Ack => true
  | _ => false

/-- Model of `Packet::is_ack`. -/
def Packet.is_ack (p : Packet) : Bool :=
  p.content.is_ack

/-- Model of `Packet::write_payload`: body bytes of the packet.  `Command2` hits
`todo!()`, a panic (`none`). -/
def Packet.writePayload (p : Packet) : Option (Except Err (List Nat)) :=
  match p.content with
  | PacketContent.Ack => some (Except.ok [])
  | PacketContent.Command1 q => some q.write_into
  | PacketContent.Command2 => none

/-- Model of `Packet::write_into`: the serialized frame
`3E kind seq len4 body checksum 3C` (the source writes these bytes into the
buffer and returns their count; the checksum folds bytes 1 .. 7+N with
`u8::wrapping_add`).  No escape transformation is applied anywhere on the
write path. -/
def Packet.write_into (p : Packet) : Option (Except Err (List Nat)) :=
  match p.writePayload with
  | none => none
  | some (Except.error e) => some (Except.error e)
  | some (Except.ok body) =>
    let pre := kindByte p.content :: p.seqnum :: be4 body.length ++ body
    some (Except.ok (0x3e :: pre ++ [checksum8 pre, 0x3c]))

/-- Model of `impl TryFrom<&[u8]> for Packet`: parses a full frame slice.  The
header byte at offset 0, the checksum and the trailer are never read.
`value[2]`/`value[1]` out of bounds, the length/payload slicings out of
bounds, and the `todo!()` arm for an unknown kind byte are panics
(`none`). -/
def Packet.tryFrom (value : List Nat) : Option (Except TryFromPacketError Packet) :=
  match value with
  | _ :: k :: sq :: _ =>
    if k = 0x01 then some (Except.ok { seqnum := sq, content := PacketContent.Ack })
    else if k = 0x0c then
      if value.length < 7 then none
      else
        let size := fromBe4 ((value.drop 3).take 4)
        if 7 + size ≤ value.length then
          match PayloadCommand1.tryFrom ((value.drop 7).take size) with
          | none => none
          | some (Except.ok p) =>
            some (Except.ok { seqnum := sq, content := PacketContent.Command1 p })
          | some (Except.error e) =>
            some (Except.error { seqnum := sq, error := e })
        else none
    else if k = 0x0e then
      some (Except.ok { seqnum := sq, content := PacketContent.Command2 })
    else none
  | _ => none

/-- Session state returned by `Device::poll`.  `SendPacket` carries the
bytes of the borrowed `write_buf` slice. -/
inductive State where
  | waitingPacket : Option Nat → State
  | receivedPacket : Packet → State
  | sendPacket : List Nat → State

/-- Model of `struct Device`: the sans-I/O session.  `reading`/`sending` mirror the
source fields; an instant inside `sending` is in milliseconds. -/
structure Device where
  pending_packet : Option Packet
  read_buf : Nat → Nat
  write_buf : Nat → Nat
  reading : Option (Nat × Nat)
  sending : Option ((Nat × Nat) × Option Nat × Nat)
  seqnum : Nat

/-- Model of `impl Default for Device`. -/
def Device.default : Device :=
  { pending_packet := none
    read_buf := fun _ => 0
    write_buf := fun _ => 0
    reading := none
    sending := none
    seqnum := 0 }

/-- Constant `RETRY_DURATION = Duration::from_secs(1)`, in milliseconds. -/
def RETRY_DURATION : Nat := 1000

/-- The de-escaping loop of `Device::received_packet`.  Arguments `ci`
and `index` are `content_index` and `index`; the result is the updated
buffer, the count of source bytes consumed and the final write index.
Reading `content[content_index + 1]` past the end of the chunk is a
panic (`none`); the restore mask is `| !0b11101111 = | 0x10`. -/
def deescape (buf : Nat → Nat) (ci index : Nat) :
    List Nat → Option ((Nat → Nat) × Nat × Nat)
  | [] => some (buf, ci, index)
  | b :: rest =>
    if index < 1023 then
      if b = 0x3d then
        match rest with
        | [] => none
        | b2 :: rest2 => deescape (updateAt buf index (b2 ||| 0x10)) (ci + 2) (index + 1) rest2
      else deescape (updateAt buf index b) (ci + 1) (index + 1) rest
    else some (buf, ci, index)

/-- Model of `Device::received_packet`: ingest a chunk of transport bytes,
returning the updated device and the count of source bytes consumed. -/
def Device.received_packet (d : Device) (content : List Nat) : Option (Device × Nat) :=
  let si := d.reading.getD (0, 0)
  match deescape d.read_buf 0 si.2 content with
  | none => none
  | some (buf, ci, idx) =>
    some ({ d with read_buf := buf, reading := some (si.1, idx) }, ci)

/-- Model of `Device::encode_packet`: encode `command` into `write_buf`, returning
the written range.  For a non-ack command with a send outstanding it
returns the `anyhow::format_err!("already awaiting response")` error (the
spec's `PacketPending`); an ack's seqnum is `1u8.wrapping_sub(s)`. -/
def Device.encode_packet (d : Device) (command : PacketContent) (seqnum : Option Nat) :
    Option (Device × Except AnyhowError (Nat × Nat)) :=
  if command.is_ack = false ∧ d.sending.isSome = true then
    some (d, Except.error (AnyhowError.message "already awaiting response"))
  else
    let sq := if command.is_ack = false then seqnum.getD d.seqnum
              else wrappingSub8 1 (seqnum.getD d.seqnum)
    let packet : Packet := { seqnum := sq, content := command }
    let start := match d.sending with
      | some ((_, e), _, _) => e
      | none => 0
    match packet.write_into with
    | none => none
    | some (Except.error e) => some (d, Except.error (AnyhowError.fromErr e))
    | some (Except.ok bs) =>
      some ({ d with write_buf := writeList d.write_buf start bs },
            Except.ok (start, start + bs.length))

/-- Model of `Device::send_packet` (the spec's `queue_send`). -/
def Device.send_packet (d : Device) (content : PacketContent) :
    Option (Device × Except AnyhowError Unit) :=
  if d.sending.isSome = true then
    some (d, Except.error (AnyhowError.message "already awaiting response"))
  else
    match d.encode_packet content none with
    | none => none
    | some (d2, Except.error e) => some (d2, Except.error e)
    | some (d2, Except.ok seq) =>
      some ({ d2 with sending := some (seq, none, RETRY_DURATION) }, Except.ok ())

/-- Model of `Device::poll`, with the ambient clock `Instant::now()` passed
explicitly as `now` (milliseconds); `i.elapsed()` is the saturating
difference `now - i`.  The `position(...).unwrap()` on a buffer holding
no trailer byte is a panic (`none`). -/
def Device.poll (d : Device) (now : Nat) : Option (Device × Except AnyhowError State) :=
  match d.pending_packet with
  | some packet =>
    some ({ d with pending_packet := none }, Except.ok (State.receivedPacket packet))
  | none =>
    match d.reading with
    | some (start, en) =>
      match (listOf d.read_buf start en).findIdx? (fun c => c == 0x3c) with
      | none => none
      | some j =>
        let pos := start + j + 1
        match Packet.tryFrom (listOf d.read_buf start pos) with
        | none => none
        | some (Except.error e) => some (d, Except.error (AnyhowError.fromPacket e))
        | some (Except.ok packet) =>
          let d1 := { d with reading := if pos = en then none else some (pos, en) }
          if packet.is_ack = true then
            if d1.sending.isSome = true then
              some ({ d1 with seqnum := packet.seqnum, sending := none },
                    Except.ok (State.receivedPacket packet))
            else
              some (d1, Except.ok (State.receivedPacket packet))
          else
            let d2 := { d1 with pending_packet := some packet }
            match d2.encode_packet PacketContent.Ack (some packet.seqnum) with
            | none => none
            | some (d3, Except.error e) => some (d3, Except.error e)
            | some (d3, Except.ok (rs, re)) =>
              some (d3, Except.ok (State.sendPacket (listOf d3.write_buf rs re)))
    | none =>
      match d.sending with
      | some (r, some i, dur) =>
        if RETRY_DURATION < now - i then
          some ({ d with sending := some (r, some (now + dur), dur) },
                Except.ok (State.sendPacket (listOf d.write_buf r.1 r.2)))
        else
          some ({ d with sending := some (r, some i, dur) },
                Except.ok (State.waitingPacket (some i)))
      | some (r, none, dur) =>
        some ({ d with sending := some (r, some (now + dur), dur) },
              Except.ok (State.sendPacket (listOf d.write_buf r.1 r.2)))
      | none => some (d, Except.ok (State.waitingPacket none))

/-- Observation: the state of a poll outcome that did not panic or error. -/
def stOf : Option (Device × Except AnyhowError State) → Option State
  | some (_, Except.ok s) => some s
  | _ => none

/-- Observation: the device left by a poll outcome that did not panic or
error. -/
def devOfPoll : Option (Device × Except AnyhowError State) → Option Device
  | some (d, Except.ok _) => some d
  | _ => none

/-- Observation: the device left by a `send_packet` outcome that did not
panic or error. -/
def devOfSend : Option (Device × Except AnyhowError Unit) → Option Device
  | some (d, Except.ok _) => some d
  | _ => none

/-- A byte buffer holding the bytes of `l` from index 0 (other cells 0). -/
def bufOfList (l : List Nat) : Nat → Nat :=
  fun i => l.getD i 0

/-- A wire frame with the §4.1 layout: header `h`, kind, seqnum, 4-byte
big-endian length of `body`, the body, a checksum byte and a trailer
byte.  Used to state which frame fields `Packet::try_from` inspects. -/
def mkFrame (h kind seq : Nat) (body : List Nat) (ck tr : Nat) : List Nat :=
  h :: kind :: seq :: (be4 body.length ++ body ++ [ck, tr])

/-- The payloads for which both encoder and decoder are implemented and
agree, so that decode ∘ encode is the identity: `InitRequest`,
`InitReply`, `BatteryLevelRequest`, `AmbientSoundControlGet`, and the
three `AncPayload`-carrying kinds restricted to `anc_mode = Off` (for the
other modes the encoder emits `b1 = 0x11`, which the decoder rejects). -/
def roundTripSupported : PayloadCommand1 → Bool
  | PayloadCommand1.InitRequest => true
  | PayloadCommand1.InitReply _ => true
  | PayloadCommand1.BatteryLevelRequest _ => true
  | PayloadCommand1.AmbientSoundControlGet => true
  | PayloadCommand1.AmbientSoundControlRet a => a.anc_mode == AncMode.Off
  | PayloadCommand1.AmbientSoundControlSet a => a.anc_mode == AncMode.Off
  | PayloadCommand1.AmbientSoundControlNotify a => a.anc_mode == AncMode.Off
  | _ => false

/-- A device with a pending (unacked, never-transmitted) send occupying
`write_buf[0..11]`. -/
def dC7 : Device :=
  { Device.default with sending := some ((0, 11), none, RETRY_DURATION) }

/-- A device that has ingested the frame `3E 0C 01 00 00 00 02 00 00 0F 3C`
(Command1 `InitRequest`, seqnum 1) and not yet polled. -/
def dC4 : Device :=
  { Device.default with
      read_buf := bufOfList [0x3e, 0x0c, 0x01, 0x00, 0x00, 0x00, 0x02, 0x00, 0x00, 0x0f, 0x3c]
      reading := some (0, 11) }

/-- The device after `send_packet(Command1(InitRequest))` at a fresh
session (scenario S5, submission at t = 0). -/
def c6Dev1 : Option Device :=
  devOfSend (Device.default.send_packet (PacketContent.Command1 PayloadCommand1.InitRequest))

/-- The S5 device after the first poll at t = 0 returned `SendPacket`. -/
def c6Dev2 : Option Device :=
  c6Dev1.bind (fun d => devOfPoll (d.poll 0))

theorem writeList_lt (bs : List Nat) : ∀ (buf : Nat → Nat) (s j : Nat), j < s →
    writeList buf s bs j = buf j := by
  induction bs with
  | nil => intro buf s j _; rfl
  | cons b rest ih =>
    intro buf s j h
    simp only [writeList]
    rw [ih _ (s + 1) j (by omega)]
    simp only [updateAt]
    rw [if_neg (by omega)]

theorem listOf_writeList (bs : List Nat) : ∀ (buf : Nat → Nat) (s : Nat),
    listOf (writeList buf s bs) s (s + bs.length) = bs := by
  induction bs with
  | nil => intro buf s; simp [listOf, writeList]
  | cons b rest ih =>
    intro buf s
    simp only [writeList, List.length_cons, listOf]
    rw [show s + (rest.length + 1) - s = rest.length + 1 by omega,
        List.range_succ_eq_map]
    simp only [List.map_cons, List.map_map]
    refine congrArg₂ List.cons ?_ ?_
    · rw [writeList_lt rest _ (s + 1) (s + 0) (by omega)]
      simp [updateAt]
    · have h2 := ih (updateAt buf s b) (s + 1)
      simp only [listOf] at h2
      rw [show s + 1 + rest.length - (s + 1) = rest.length by omega] at h2
      refine Eq.trans ?_ h2
      refine List.map_congr_left ?_
      intro i _
      simp only [Function.comp]
      congr 1
      omega

theorem fromBe4_be4 (n : Nat) (h : n < 4294967296) : fromBe4 (be4 n) = n := by
  simp only [fromBe4, be4, List.getD, List.get?, Option.getD_some]
  omega

/-- C1 counterexample: the claim `decode(encode(p)) == p` fails at
`AmbientSoundControlSet` with `anc_mode = On`: the encoder emits
`b1 = 0x11`, and decoding those very bytes hits `unimplemented!()`
(a panic, `none`) instead of returning the payload. -/
theorem claim_C1_counterexample :
    PayloadCommand1.write_into
        (PayloadCommand1.AmbientSoundControlSet ⟨AncMode.On, false, 0⟩) =
      Except.ok [0x68, 0x02, 0x11, 0x02, 0x02, 0x01, 0x00, 0x01] ∧
    PayloadCommand1.tryFrom [0x68, 0x02, 0x11, 0x02, 0x02, 0x01, 0x00, 0x01] = none :=
  ⟨rfl, rfl⟩

/-- C1 (amended): `decode(encode(p)) == p` holds exactly on the payloads
whose encoder and decoder are both implemented and aligned — `InitRequest`,
`InitReply`, `BatteryLevelRequest`, `AmbientSoundControlGet`, and the
`AncPayload` kinds with `anc_mode = Off`.  (`BatteryLevelReply/Notify`
fail to encode with `NotImplemented`; ANC payloads with other modes encode
`b1 = 0x11`, which the decoder rejects by panicking.) -/
theorem claim_C1_amended (p : PayloadCommand1) (h : roundTripSupported p = true) :
    ∃ bs, p.write_into = Except.ok bs ∧
      PayloadCommand1.tryFrom bs = some (Except.ok p) := by
  cases p <;> try exact absurd h (by decide)
  case InitRequest => exact ⟨_, rfl, rfl⟩
  case InitReply b => exact ⟨_, rfl, rfl⟩
  case BatteryLevelRequest t => cases t <;> exact ⟨_, rfl, rfl⟩
  case BatteryLevelReply s => simp [roundTripSupported] at h
  case BatteryLevelNotify s => simp [roundTripSupported] at h
  case AmbientSoundControlGet => exact ⟨_, rfl, rfl⟩
  case AmbientSoundControlRet a =>
    obtain ⟨m, f, lvl⟩ := a
    cases m
    case Off => cases f <;> exact ⟨_, rfl, rfl⟩
    all_goals simp [roundTripSupported] at h
  case AmbientSoundControlSet a =>
    obtain ⟨m, f, lvl⟩ := a
    cases m
    case Off => cases f <;> exact ⟨_, rfl, rfl⟩
    all_goals simp [roundTripSupported] at h
  case AmbientSoundControlNotify a =>
    obtain ⟨m, f, lvl⟩ := a
    cases m
    case Off => cases f <;> exact ⟨_, rfl, rfl⟩
    all_goals simp [roundTripSupported] at h

/-- C1 witness: the amended round trip at
`AmbientSoundControlSet ⟨Off, true, 0x37⟩`. -/
theorem claim_C1_witness :
    roundTripSupported (PayloadCommand1.AmbientSoundControlSet ⟨AncMode.Off, true, 0x37⟩) = true ∧
    ∃ bs, PayloadCommand1.write_into
        (PayloadCommand1.AmbientSoundControlSet ⟨AncMode.Off, true, 0x37⟩) = Except.ok bs ∧
      PayloadCommand1.tryFrom bs =
        some (Except.ok (PayloadCommand1.AmbientSoundControlSet ⟨AncMode.Off, true, 0x37⟩)) :=
  ⟨rfl, claim_C1_amended _ rfl⟩

/-- C2: the code does panic on a protocol-level fault, contradicting the
claim.  Ingesting the partial frame `3E 0C 00` (no trailer yet) consumes
3 bytes, but the following `poll` hits `position(...).unwrap()` on a
buffer without `0x3C` and panics (`none`) instead of returning a value
and keeping the partial frame. -/
theorem claim_C2_code_bug :
    (Device.default.received_packet [0x3e, 0x0c, 0x00]).map Prod.snd = some 3 ∧
    (Device.default.received_packet [0x3e, 0x0c, 0x00]).bind (fun p => p.1.poll 0) = none :=
  ⟨rfl, rfl⟩

/-- C5: a split escape is not tracked across intake calls — the claim
fails on the code.  A chunk ending in the escape byte `0x3D` makes
`received_packet` read `content[content_index + 1]` out of bounds and
panic (`none`); only when the escape pair arrives within one call does it
consume 2 bytes and restore `0x2C | 0x10 = 0x3C`. -/
theorem claim_C5_code_bug :
    Device.default.received_packet [0x3d] = none ∧
    (Device.default.received_packet [0x3d, 0x2c]).map Prod.snd = some 2 ∧
    (Device.default.received_packet [0x3d, 0x2c]).map (fun p => p.1.read_buf 0) =
      some 0x3c :=
  ⟨rfl, rfl, rfl⟩

/-- C6: retransmission does not happen at `last_sent_at + retry_interval`.
Submitting at t = 0 and polling at t = 0 yields `SendPacket` (storing the
instant `0 + 1000 ms`); polling at t = 500 yields
`WaitingPacket (some 1000)` as the claim says, but polling at t = 1100
still yields `WaitingPacket (some 1000)` — the code compares the elapsed
time since the stored deadline against `RETRY_DURATION`, so it retransmits
only after t = 2000 ms. -/
theorem claim_C6_code_bug :
    c6Dev1.map (fun d => stOf (d.poll 0)) =
      some (some (State.sendPacket
        [0x3e, 0x0c, 0x00, 0x00, 0x00, 0x00, 0x02, 0x00, 0x00, 0x0e, 0x3c])) ∧
    c6Dev2.map (fun d => stOf (d.poll 500)) =
      some (some (State.waitingPacket (some 1000))) ∧
    c6Dev2.map (fun d => stOf (d.poll 1100)) =
      some (some (State.waitingPacket (some 1000))) :=
  ⟨rfl, rfl, rfl⟩

/-- C7: once a send is outstanding, a further `send_packet` returns the
"already awaiting response" error (the spec's `PacketPending`) and leaves
the device — including the pending send and `write_buf` — unchanged. -/
theorem claim_C7 (d : Device) (c : PacketContent) (h : d.sending.isSome = true) :
    d.send_packet c =
      some (d, Except.error (AnyhowError.message "already awaiting response")) := by
  simp [Device.send_packet, h]

/-- C7 witness: a second send on a device with a pending send. -/
theorem claim_C7_witness :
    dC7.sending.isSome = true ∧
    dC7.send_packet (PacketContent.Command1 PayloadCommand1.InitRequest) =
      some (dC7, Except.error (AnyhowError.message "already awaiting response")) :=
  ⟨rfl, claim_C7 dC7 _ rfl⟩

/-- C8: decoding a Dual-typed BatteryState body applies the collapse rule:
left level 0 collapses to Single(right), otherwise right level 0 collapses
to Single(left), otherwise all four fields are preserved. -/
theorem claim_C8 (ll lc rl rc : Nat) :
    BatteryState.tryFrom [1, ll, lc, rl, rc] =
      some (Except.ok
        (if ll = 0 then BatteryState.Single rl (rc == 1)
         else if rl = 0 then BatteryState.Single ll (lc == 1)
         else BatteryState.Dual ll (lc == 1) rl (rc == 1))) := by
  by_cases h1 : ll = 0 <;> by_cases h2 : rl = 0 <;>
    simp [BatteryState.tryFrom, BatteryType.tryFrom, List.get?, h1, h2]

/-- C9: a frame whose kind byte (offset 1) is outside {0x01, 0x0C, 0x0E}
does not produce the `UnknownPacket` error the claim expects: parsing hits
`todo!()` and panics (`none`).  Shown at kind byte 0x02. -/
theorem claim_C9_code_bug :
    Packet.tryFrom [0x3e, 0x02, 0x00, 0x00, 0x00, 0x00, 0x00, 0x0c, 0x3c] = none :=
  rfl

theorem getLast?_pair (A : List Nat) (c t : Nat) : (A ++ [c, t]).getLast? = some t := by
  rw [show [c, t] = [c] ++ [t] from rfl, ← List.append_assoc]
  exact List.getLast?_concat _

/-- C3 (amended): every frame that `Packet::write_into` produces begins
with 0x3E, ends with 0x3C, has length N + 9, carries at offset 7 + N the
wrapping-sum checksum of bytes 1 .. 7 + N — but the body bytes are
emitted verbatim at offset 7: the encoder applies no escape
transformation, so sentinel bytes inside the body appear un-escaped
(the claim's escaping clause fails, see the counterexample). -/
theorem claim_C3_amended (p : Packet) (body bs : List Nat)
    (hb : p.writePayload = some (Except.ok body))
    (hw : p.write_into = some (Except.ok bs)) :
    bs.head? = some 0x3e ∧
    bs.getLast? = some 0x3c ∧
    bs.length = body.length + 9 ∧
    (bs.drop 7).take body.length = body ∧
    bs.get? (7 + body.length) =
      some (checksum8 ((bs.take (7 + body.length)).drop 1)) := by
  simp only [Packet.write_into, hb] at hw
  simp only [Option.some.injEq, Except.ok.injEq] at hw
  subst hw
  have hlen : (0x3e :: (kindByte p.content :: p.seqnum :: be4 body.length ++ body)).length
      = 7 + body.length := by
    simp only [List.length_cons, List.length_append, be4, List.length_nil]
    omega
  refine ⟨rfl, getLast?_pair _ _ _, ?_, ?_, ?_⟩
  · simp only [List.length_append, List.length_cons, be4, List.length_nil]
    omega
  · exact List.take_left body _
  · rw [← hlen, List.get?_append_right (Nat.le_refl _), List.take_left, Nat.sub_self]
    rfl

/-- C3 counterexample: encoding `InitReply (0x3C, 0, 0)` emits the raw
trailer byte 0x3C at interior position 8 and no escape byte 0x3D
anywhere — the frame contains an un-escaped sentinel in positions
1..8+N, and no `3D 2C` pair is produced. -/
theorem claim_C3_counterexample :
    Packet.write_into ⟨0, PacketContent.Command1 (PayloadCommand1.InitReply (0x3c, 0x00, 0x00))⟩ =
      some (Except.ok
        [0x3e, 0x0c, 0x00, 0x00, 0x00, 0x00, 0x04, 0x01, 0x3c, 0x00, 0x00, 0x4d, 0x3c]) ∧
    ([0x3e, 0x0c, 0x00, 0x00, 0x00, 0x00, 0x04, 0x01, 0x3c, 0x00, 0x00, 0x4d, 0x3c] :
        List Nat).get? 8 = some 0x3c ∧
    ([0x3e, 0x0c, 0x00, 0x00, 0x00, 0x00, 0x04, 0x01, 0x3c, 0x00, 0x00, 0x4d, 0x3c] :
        List Nat).count 0x3d = 0 :=
  ⟨rfl, rfl, by decide⟩

/-- C3 witness: the amended framing facts at the S1 `InitRequest` frame
`3E 0C 00 00 00 00 02 00 00 0E 3C`. -/
theorem claim_C3_witness :
    ((⟨0, PacketContent.Command1 PayloadCommand1.InitRequest⟩ : Packet).writePayload
        = some (Except.ok [0x00, 0x00])) ∧
    ((⟨0, PacketContent.Command1 PayloadCommand1.InitRequest⟩ : Packet).write_into
        = some (Except.ok [0x3e, 0x0c, 0x00, 0x00, 0x00, 0x00, 0x02, 0x00, 0x00, 0x0e, 0x3c])) ∧
    (([0x3e, 0x0c, 0x00, 0x00, 0x00, 0x00, 0x02, 0x00, 0x00, 0x0e, 0x3c] : List Nat).head?
        = some 0x3e ∧
     ([0x3e, 0x0c, 0x00, 0x00, 0x00, 0x00, 0x02, 0x00, 0x00, 0x0e, 0x3c] : List Nat).getLast?
        = some 0x3c ∧
     ([0x3e, 0x0c, 0x00, 0x00, 0x00, 0x00, 0x02, 0x00, 0x00, 0x0e, 0x3c] : List Nat).length
        = [0x00, 0x00].length + 9 ∧
     (([0x3e, 0x0c, 0x00, 0x00, 0x00, 0x00, 0x02, 0x00, 0x00, 0x0e, 0x3c] : List Nat).drop 7).take
        [0x00, 0x00].length = [0x00, 0x00] ∧
     ([0x3e, 0x0c, 0x00, 0x00, 0x00, 0x00, 0x02, 0x00, 0x00, 0x0e, 0x3c] : List Nat).get?
        (7 + [0x00, 0x00].length) =
       some (checksum8 ((([0x3e, 0x0c, 0x00, 0x00, 0x00, 0x00, 0x02, 0x00, 0x00, 0x0e, 0x3c] :
          List Nat).take (7 + [0x00, 0x00].length)).drop 1))) :=
  ⟨rfl, rfl, claim_C3_amended ⟨0, PacketContent.Command1 PayloadCommand1.InitRequest⟩
    [0x00, 0x00] [0x3e, 0x0c, 0x00, 0x00, 0x00, 0x00, 0x02, 0x00, 0x00, 0x0e, 0x3c] rfl rfl⟩

/-- C4 counterexample: ingesting a non-ack frame whose seqnum byte is 2
makes the session emit an auto-ack with seqnum byte 0xFF =
`1u8.wrapping_sub(2)`, not `1 XOR 2 = 3` as the claim states for
arbitrary byte values. -/
theorem claim_C4_counterexample :
    stOf ((Device.default.received_packet
        [0x3e, 0x0c, 0x02, 0x00, 0x00, 0x00, 0x02, 0x00, 0x00, 0x10, 0x3c]).bind
        (fun p => p.1.poll 0)) =
      some (State.sendPacket [0x3e, 0x01, 0xff, 0x00, 0x00, 0x00, 0x00, 0x00, 0x3c]) ∧
    (0xff : Nat) ≠ 1 ^^^ 2 :=
  ⟨rfl, by decide⟩

/-- C4 (amended): for every non-ack packet ingested whose seqnum byte is
s, the auto-ack emitted in the next `SendPacket` state carries seqnum
`(1 - s) mod 256` (u8 wrapping subtraction), which coincides with
`1 XOR s` on the protocol's one-bit values s ∈ {0, 1}. -/
theorem claim_C4_amended (d : Device) (start en j now : Nat) (pkt : Packet)
    (h1 : d.pending_packet = none)
    (h2 : d.reading = some (start, en))
    (h3 : (listOf d.read_buf start en).findIdx? (fun c => c == 0x3c) = some j)
    (h4 : Packet.tryFrom (listOf d.read_buf start (start + j + 1)) = some (Except.ok pkt))
    (h5 : pkt.is_ack = false)
    (h6 : d.sending = none) :
    stOf (d.poll now) = some (State.sendPacket
      [0x3e, 0x01, wrappingSub8 1 pkt.seqnum, 0x00, 0x00, 0x00, 0x00,
       checksum8 [0x01, wrappingSub8 1 pkt.seqnum, 0x00, 0x00, 0x00, 0x00], 0x3c]) ∧
    ∀ s, s < 2 → wrappingSub8 1 s = 1 ^^^ s := by
  constructor
  · simp only [Device.poll, h1, h2, h3, h4, h5, Bool.false_eq_true, if_false]
    simp only [Device.encode_packet, h6, Option.isSome_none, Bool.false_eq_true, and_false,
      if_false, ne_eq, not_true_eq_false, false_and, Option.getD_some, Packet.write_into,
      Packet.writePayload, be4, Nat.zero_div, Nat.zero_mod, List.append_nil, List.cons_append,
      List.nil_append]
    rw [listOf_writeList]
    rfl
  · intro s hs
    interval_cases s <;> rfl

/-- C4 witness: the amended statement at a freshly ingested `InitRequest`
frame with seqnum byte 1 — the auto-ack frame is
`3E 01 00 00 00 00 00 01 3C` (seqnum `1 - 1 = 0 = 1 XOR 1`). -/
theorem claim_C4_witness :
    stOf (dC4.poll 0) = some (State.sendPacket
      [0x3e, 0x01, 0x00, 0x00, 0x00, 0x00, 0x00, 0x01, 0x3c]) ∧
    ∀ s, s < 2 → wrappingSub8 1 s = 1 ^^^ s :=
  claim_C4_amended dC4 0 11 10 0 ⟨1, PacketContent.Command1 PayloadCommand1.InitRequest⟩
    rfl rfl rfl rfl rfl rfl

/-- C10: `Packet::try_from` inspects neither the header byte at offset 0,
nor the checksum byte, nor the trailer: for every kind byte in
{0x01, 0x0C, 0x0E} whose declared body parses, it returns the same packet
for every value of those three bytes. -/
theorem claim_C10 (h h2 seq ck ck2 tr tr2 kind : Nat) (body : List Nat)
    (hk : kind = 0x01 ∨ kind = 0x0c ∨ kind = 0x0e)
    (hlen : body.length < 4294967296)
    (hp : kind = 0x0c → ∃ q, PayloadCommand1.tryFrom body = some (Except.ok q)) :
    ∃ pkt, Packet.tryFrom (mkFrame h kind seq body ck tr) = some (Except.ok pkt) ∧
           Packet.tryFrom (mkFrame h2 kind seq body ck2 tr2) = some (Except.ok pkt) := by
  rcases hk with hk | hk | hk <;> subst hk
  · exact ⟨⟨seq, PacketContent.Ack⟩, rfl, rfl⟩
  · obtain ⟨q, hq⟩ := hp rfl
    have key : ∀ hh cck ttr : Nat,
        Packet.tryFrom (mkFrame hh 0x0c seq body cck ttr) =
          some (Except.ok ⟨seq, PacketContent.Command1 q⟩) := by
      intro hh cck ttr
      have hL : (mkFrame hh 0x0c seq body cck ttr).length = body.length + 9 := by
        simp [mkFrame, be4]
        try omega
      have hsize : fromBe4 (((mkFrame hh 0x0c seq body cck ttr).drop 3).take 4) =
          body.length := by
        rw [(rfl : ((mkFrame hh 0x0c seq body cck ttr).drop 3).take 4 = be4 body.length)]
        exact fromBe4_be4 _ hlen
      have hpayload : (mkFrame hh 0x0c seq body cck ttr).drop 7 = body ++ [cck, ttr] := rfl
      simp only [mkFrame] at hL hsize hpayload ⊢
      simp only [Packet.tryFrom]
      rw [if_pos trivial, hL, hsize]
      rw [if_neg (by norm_num), if_neg (by omega), if_pos (by omega)]
      rw [hpayload, List.take_left body [cck, ttr], hq]
    exact ⟨⟨seq, PacketContent.Command1 q⟩, key h ck tr, key h2 ck2 tr2⟩
  · exact ⟨⟨seq, PacketContent.Command2⟩, rfl, rfl⟩

/-- C10 witness: the S1 body `[0, 0]` parses under kind 0x0C for two
frames differing in header, checksum and trailer bytes. -/
theorem claim_C10_witness :
    ∃ pkt, Packet.tryFrom (mkFrame 0x3e 0x0c 0x01 [0x00, 0x00] 0x0e 0x3c) =
        some (Except.ok pkt) ∧
      Packet.tryFrom (mkFrame 0x00 0x0c 0x01 [0x00, 0x00] 0x99 0x00) =
        some (Except.ok pkt) :=
  claim_C10 0x3e 0x00 0x01 0x0e 0x99 0x3c 0x00 0x0c [0x00, 0x00]
    (Or.inr (Or.inl rfl)) (by decide) (fun _ => ⟨PayloadCommand1.InitRequest, rfl⟩)
